import Mathlib

/-!
  # Listener connection lifecycle — shallow embedding of `src/components/Listner.jsx`

  The component is a React function component whose behavior is a state
  machine over its hook state (`useState` fields plus the timer refs). The
  embedding below carries that hook state in one record, `ListenerState`,
  and translates each callback of the component into a pure state
  transformer. React's `setX(v)` becomes a field update; the functional
  form `setX(prev => f prev)` acts on the current value, exactly as in
  React. Each callback invocation reads the component state current at the
  time it runs (its `useCallback` closures are re-created on every render,
  which follows every state update); within one invocation of
  `attemptReconnection`, however, the local `reconnectCount` binding is a
  captured constant — `setReconnectCount` does not change it — so the
  scheduled timeout callback carries that captured value. The embedding
  keeps that captured value with the scheduled timeout (`pendingReconnects`
  stores it) and hands it back to `reconnectTimeout` when the timeout
  fires.

  Asynchronous outcomes that depend on the external transport (whether
  `client.join` succeeds, whether `audioTrack.play()` succeeds, whether the
  presence HTTP query succeeds) are parameters of the corresponding
  transformers. Timer machinery is modelled by explicit bookkeeping:
  `pendingReconnects` lists the reconnect timeouts currently scheduled (the
  source keeps at most the latest id in `reconnectTimeoutRef`, but an
  overwritten timeout would still fire, so the embedding keeps them all),
  and `heartbeatRunning` mirrors whether `heartbeatIntervalRef` holds a
  live interval. JavaScript numbers in the backoff formula are modelled as
  rationals.
-/

namespace Listner

/-- A subscribed remote audio track, reduced to the two facts the
component ever sets on it: the volume last applied via `setVolume` and
whether it is currently playing (`play()` / `stop()`). -/
structure AudioTrack where
  volumeApplied : Nat
  playing : Bool
deriving DecidableEq, Repr

/-- The hook state of the `Listner` component (the fields the connection
lifecycle reads or writes), plus the timer bookkeeping described in the
file header. `pendingReconnects` holds, for each scheduled reconnect
timeout, the `reconnectCount` value its closure captured at the time
`attemptReconnection` ran. -/
structure ListenerState where
  isConnected : Bool
  isLive : Bool
  isPlaying : Bool
  isMuted : Bool
  volume : Nat
  isReconnecting : Bool
  reconnectCount : Nat
  wasPlayingBeforeDisconnect : Bool
  remoteAudioTrack : Option AudioTrack
  broadcasterOnline : Bool
  listenerCount : Nat
  connectionError : Option String
  pendingReconnects : List Nat
  heartbeatRunning : Bool
deriving DecidableEq, Repr

/-- `const maxReconnectAttempts = 20` (line 66). -/
def maxReconnectAttempts : Nat := 20

/-- `const heartbeatInterval = 1500` (line 67), in milliseconds. -/
def heartbeatInterval : Nat := 1500

/-- Line 168: `const delay = Math.min(500 * Math.pow(1.2, reconnectCount), 3000)`,
where `reconnectCount` is the value captured at entry to
`attemptReconnection`. JavaScript numbers modelled as rationals. -/
def reconnectDelay (c : Nat) : ℚ := min (500 * (6 / 5 : ℚ) ^ c) 3000

/-- Lines 155–216, the synchronous body of `attemptReconnection`: bail out
when the budget is exhausted (the `!client || !isComponentMountedRef`
disjuncts of the guard are modelled by only invoking the transformer while
the client exists and the component is mounted); otherwise set
`isReconnecting`, increment the counter (`setReconnectCount(prev => prev + 1)`),
clear the error, and schedule the timeout, whose closure captures the
entry value of `reconnectCount`. -/
def attemptReconnection (s : ListenerState) : ListenerState :=
  if maxReconnectAttempts ≤ s.reconnectCount then s
  else
    { s with
      isReconnecting := true
      reconnectCount := s.reconnectCount + 1
      connectionError := none
      pendingReconnects := s.pendingReconnects ++ [s.reconnectCount] }

/-- Lines 170–216, the `setTimeout` callback of `attemptReconnection`
firing: `c` is the captured `reconnectCount`, `success` whether the
`leave` / `setClientRole` / `join` sequence succeeded (a missing
`APP_ID`/`CHANNEL_NAME` throws and is caught by the same handler, so it is
a `success = false` case). On success: connected, not reconnecting,
counter reset to 0, error cleared. On failure: record the error, then
either recurse into `attemptReconnection` (when `c < maxReconnectAttempts - 1`)
or stop with the terminal error. -/
def reconnectTimeout (s : ListenerState) (c : Nat) (success : Bool) : ListenerState :=
  let s0 := { s with pendingReconnects := s.pendingReconnects.erase c }
  if success then
    { s0 with
      isConnected := true
      isReconnecting := false
      reconnectCount := 0
      connectionError := none }
  else
    let s1 := { s0 with connectionError := some "Reconnection failed" }
    if c < maxReconnectAttempts - 1 then attemptReconnection s1
    else
      { s1 with
        isReconnecting := false
        connectionError := some "Connection failed after maximum attempts. Please refresh the page." }

/-- Lines 111–145, `checkBroadcasterStatus` when the presence query
succeeds and returns data: publish the fresh snapshot
(`setListenerCount`, `setBroadcasterOnline`); when the broadcaster is
online while we are connected, not live, and hold no audio track, record
the stuck-state error and — unless an attempt is already in flight or the
budget is spent — invoke `attemptReconnection`; finally clear any error
once the broadcaster is online. (When the response carries no `data` the
handler does nothing; that case is the identity and is not modelled
separately.) -/
def checkBroadcasterStatusOk (s : ListenerState) (hostOnline : Bool) (listeners : Nat) :
    ListenerState :=
  let s1 := { s with listenerCount := listeners, broadcasterOnline := hostOnline }
  let s2 :=
    if hostOnline = true ∧ s1.isConnected = true ∧ s1.isLive = false ∧
        s1.remoteAudioTrack = none then
      let sErr :=
        { s1 with connectionError := some "Broadcaster detected but audio not received - reconnecting..." }
      if sErr.isReconnecting = false ∧ sErr.reconnectCount < maxReconnectAttempts then
        attemptReconnection sErr
      else sErr
    else s1
  if hostOnline = true ∧ s2.connectionError.isSome = true then
    { s2 with connectionError := none }
  else s2

/-- Lines 146–151, the `catch` branch of `checkBroadcasterStatus`: the
query failure is logged and, when no reconnect is in flight, surfaced as a
transient error; nothing else changes and the heartbeat interval is left
running. -/
def checkBroadcasterStatusErr (s : ListenerState) : ListenerState :=
  if s.isReconnecting = false then
    { s with connectionError := some "Unable to check broadcaster status" }
  else s

/-- Lines 220–240, `handleDisconnection`: capture the play intent, drop
the connected/live/playing flags, record the error, stop the track and
release its reference (`remoteAudioTrack.stop(); setRemoteAudioTrack(null)`,
plus `setRemoteMediaStreamTrack(undefined)`), then — unless already
reconnecting or out of budget — invoke `attemptReconnection`. -/
def handleDisconnection (s : ListenerState) : ListenerState :=
  let s1 :=
    { s with
      wasPlayingBeforeDisconnect := s.isPlaying
      isConnected := false
      isLive := false
      isPlaying := false
      connectionError := some "Connection lost - attempting to reconnect..."
      remoteAudioTrack := none }
  if s1.isReconnecting = false ∧ s1.reconnectCount < maxReconnectAttempts then
    attemptReconnection s1
  else s1

/-- Lines 256–296, the `user-published` handler for an audio track:
`subscribeOk` is whether `client.subscribe` succeeded (its failure lands
in the `catch` that records an error), `playOk` whether the auto-resume
`audioTrack.play()` succeeded. On subscribe success the handler applies
the current mute/volume setting to the track
(`audioTrack.setVolume(isMuted ? 0 : volume)`) before exposing the handle
(`setRemoteAudioTrack`), goes live, clears the error, and — when
`wasPlayingBeforeDisconnect` is set — attempts playback: on success it
marks playing and clears the flag; on failure the `catch` only logs, so
the flag stays set. -/
def userPublished (s : ListenerState) (subscribeOk playOk : Bool) : ListenerState :=
  if subscribeOk = false then
    { s with connectionError := some "Failed to connect to audio" }
  else
    let t : AudioTrack :=
      { volumeApplied := if s.isMuted = true then 0 else s.volume, playing := false }
    let s1 := { s with remoteAudioTrack := some t, isLive := true, connectionError := none }
    if s1.wasPlayingBeforeDisconnect = true then
      if playOk = true then
        { s1 with
          remoteAudioTrack := some { t with playing := true }
          isPlaying := true
          wasPlayingBeforeDisconnect := false }
      else s1
    else s1

/-- Lines 298–308, the `user-unpublished` handler for an audio track: it
only clears the live and playing flags (and shows a toast); the track
handle is neither stopped nor released here. -/
def userUnpublished (s : ListenerState) : ListenerState :=
  { s with isLive := false, isPlaying := false }

/-- Lines 402–407, `startHeartbeat`: a no-op when the interval already
runs, otherwise arm the interval. -/
def startHeartbeat (s : ListenerState) : ListenerState :=
  if s.heartbeatRunning = true then s else { s with heartbeatRunning := true }

/-- Lines 409–415, `stopHeartbeat`: clear the interval when armed. -/
def stopHeartbeat (s : ListenerState) : ListenerState :=
  if s.heartbeatRunning = true then { s with heartbeatRunning := false } else s

/-- Lines 449–454 with 436–447, `handleVolumeChange`: store the new volume
(`setVolume`), and when not muted forward it to the track through the
debounced setter (which applies `setVolume(newVolume)` to the track when a
track is present; the debounce coalesces rapid changes to the latest
value, so the settled effect modelled here is the application of that
latest value). While muted the track is not touched. -/
def handleVolumeChange (s : ListenerState) (newVolume : Nat) : ListenerState :=
  let s1 := { s with volume := newVolume }
  if s1.isMuted = false then
    match s1.remoteAudioTrack with
    | some t => { s1 with remoteAudioTrack := some { t with volumeApplied := newVolume } }
    | none => s1
  else s1

/-- Lines 483–500, `toggleMute`: an early return when no track is held;
otherwise muting applies volume 0 to the track and unmuting applies the
stored `volume`, then the flag flips. The stored `volume` field is never
written here. -/
def toggleMute (s : ListenerState) : ListenerState :=
  match s.remoteAudioTrack with
  | none => s
  | some t =>
    if s.isMuted = false then
      { s with remoteAudioTrack := some { t with volumeApplied := 0 }, isMuted := true }
    else
      { s with remoteAudioTrack := some { t with volumeApplied := s.volume }, isMuted := false }

/-- Lines 456–481, `handlePlayPauseStream`: with no track, record the
error; otherwise toggle between playing and stopped (`ok` is whether the
underlying `play()`/`stop()` call succeeded; its failure lands in the
`catch` that records a playback error), updating the play-intent flag
`wasPlayingBeforeDisconnect` to match. -/
def handlePlayPauseStream (s : ListenerState) (ok : Bool) : ListenerState :=
  match s.remoteAudioTrack with
  | none => { s with connectionError := some "No audio stream available" }
  | some t =>
    if ok = false then { s with connectionError := some "Playback error" }
    else if s.isPlaying = true then
      { s with
        remoteAudioTrack := some { t with playing := false }
        isPlaying := false
        wasPlayingBeforeDisconnect := false }
    else
      { s with
        remoteAudioTrack := some { t with playing := true }
        isPlaying := true
        wasPlayingBeforeDisconnect := true
        connectionError := none }

/-- Lines 386–398, the cleanup of the client effect on teardown: cancel
the scheduled reconnect timeout (`clearTimeout(reconnectTimeoutRef)`),
stop the heartbeat, remove the listeners, stop the held audio track (its
reference dies with the unmounted component), and leave the channel. -/
def cleanupEffect (s : ListenerState) : ListenerState :=
  let s1 := stopHeartbeat { s with pendingReconnects := [] }
  { s1 with
    remoteAudioTrack := s1.remoteAudioTrack.map fun t => { t with playing := false } }

/-- The external events the component reacts to: a heartbeat tick whose
presence query succeeded (with the reported host-online flag and audience
size) or failed, a transport disconnect (the `connection-state-changed` /
`exception` paths into `handleDisconnection`), a broadcaster publish (with
the subscribe and auto-play outcomes) or unpublish, a scheduled reconnect
timeout resolving (with the rejoin outcome), the user's mute toggle,
volume change and play/pause, and component teardown. -/
inductive Ev where
  | heartbeatOk (hostOnline : Bool) (listeners : Nat)
  | heartbeatErr
  | disconnect
  | published (subscribeOk playOk : Bool)
  | unpublished
  | timeout (success : Bool)
  | mute
  | volumeChange (v : Nat)
  | playPause (ok : Bool)
  | teardown
deriving DecidableEq, Repr

/-- One event step of the component. A `timeout` event fires the oldest
scheduled reconnect timeout, handing `reconnectTimeout` the count that
timeout captured; with nothing scheduled it is a no-op. -/
def step : Ev → ListenerState → ListenerState
  | .heartbeatOk h n, s => checkBroadcasterStatusOk s h n
  | .heartbeatErr, s => checkBroadcasterStatusErr s
  | .disconnect, s => handleDisconnection s
  | .published sub play, s => userPublished s sub play
  | .unpublished, s => userUnpublished s
  | .timeout ok, s =>
    match s.pendingReconnects with
    | [] => s
    | c :: _ => reconnectTimeout s c ok
  | .mute, s => toggleMute s
  | .volumeChange v, s => handleVolumeChange s v
  | .playPause ok, s => handlePlayPauseStream s ok
  | .teardown, s => cleanupEffect s

/-- Run a sequence of events from a state. -/
def runEvents (evs : List Ev) (s : ListenerState) : ListenerState :=
  evs.foldl (fun s e => step e s) s

/-- The component state right after a successful first join (lines
353–365): connected, heartbeat armed, defaults everywhere else
(`volume` initialized to 75 on line 34). -/
def initialState : ListenerState :=
  { isConnected := true
    isLive := false
    isPlaying := false
    isMuted := false
    volume := 75
    isReconnecting := false
    reconnectCount := 0
    wasPlayingBeforeDisconnect := false
    remoteAudioTrack := none
    broadcasterOnline := false
    listenerCount := 0
    connectionError := none
    pendingReconnects := []
    heartbeatRunning := true }

/-- The reconnection trace in which every attempt fails: start one attempt
from the fresh connected state, then let `n` scheduled timeouts resolve as
failures (the failure handler itself schedules each next attempt). -/
def failedRun (n : Nat) : ListenerState :=
  (step (Ev.timeout false))^[n] (attemptReconnection initialState)

/-- At most one reconnect timeout is scheduled, and none while no attempt
is marked in flight. -/
def AtMostOnePending (s : ListenerState) : Prop :=
  s.pendingReconnects.length ≤ 1 ∧ (s.isReconnecting = false → s.pendingReconnects = [])

instance (s : ListenerState) : Decidable (AtMostOnePending s) :=
  inferInstanceAs (Decidable (_ ∧ _))

/-! ## Helper lemmas -/

theorem attemptReconnection_of_lt {s : ListenerState}
    (h : s.reconnectCount < maxReconnectAttempts) :
    attemptReconnection s =
      { s with
        isReconnecting := true
        reconnectCount := s.reconnectCount + 1
        connectionError := none
        pendingReconnects := s.pendingReconnects ++ [s.reconnectCount] } := by
  rw [attemptReconnection, if_neg (by omega)]

theorem attemptReconnection_of_ge {s : ListenerState}
    (h : maxReconnectAttempts ≤ s.reconnectCount) :
    attemptReconnection s = s := by
  rw [attemptReconnection, if_pos h]

/-- Starting an attempt from a state with nothing scheduled leaves at most
one scheduled timeout, in flight only when marked so. -/
theorem atMostOnePending_attemptReconnection {s : ListenerState}
    (h : s.pendingReconnects = []) :
    AtMostOnePending (attemptReconnection s) := by
  unfold attemptReconnection AtMostOnePending
  split_ifs with hc
  · exact ⟨by simp [h], fun _ => h⟩
  · constructor <;> simp [h]

theorem atMostOnePending_checkBroadcasterStatusOk (s : ListenerState) (h : Bool) (n : Nat)
    (hs : AtMostOnePending s) : AtMostOnePending (checkBroadcasterStatusOk s h n) := by
  obtain ⟨hlen, hemp⟩ := hs
  simp only [checkBroadcasterStatusOk]
  split_ifs with h1 h2 h3 h4 h5 <;>
    first
      | exact ⟨hlen, hemp⟩
      | (apply atMostOnePending_attemptReconnection; exact hemp h2.1)

theorem atMostOnePending_handleDisconnection (s : ListenerState)
    (hs : AtMostOnePending s) : AtMostOnePending (handleDisconnection s) := by
  obtain ⟨hlen, hemp⟩ := hs
  simp only [handleDisconnection]
  split_ifs with h1
  · exact atMostOnePending_attemptReconnection (hemp h1.1)
  · exact ⟨hlen, hemp⟩

theorem atMostOnePending_timeout (s : ListenerState) (ok : Bool)
    (hs : AtMostOnePending s) : AtMostOnePending (step (Ev.timeout ok) s) := by
  obtain ⟨hlen, hemp⟩ := hs
  simp only [step]
  cases hp : s.pendingReconnects with
  | nil => exact ⟨by simp [hp], fun _ => hp⟩
  | cons c rest =>
    have hrest : rest = [] := by
      have := hlen
      rw [hp] at this
      simpa using this
    subst hrest
    simp only [reconnectTimeout, hp, List.erase_cons_head]
    split_ifs with h1 h2
    · exact ⟨by simp, fun _ => rfl⟩
    · exact atMostOnePending_attemptReconnection rfl
    · exact ⟨by simp, fun _ => rfl⟩

/-- Every event step preserves the single-pending-attempt invariant: the
re-entry guards at the call sites of `attemptReconnection` (the heartbeat
handler and the disconnect handler both test `isReconnecting` first) keep
at most one reconnect timeout scheduled. -/
theorem atMostOnePending_step (e : Ev) (s : ListenerState)
    (hs : AtMostOnePending s) : AtMostOnePending (step e s) := by
  cases e with
  | heartbeatOk h n => exact atMostOnePending_checkBroadcasterStatusOk s h n hs
  | heartbeatErr =>
    obtain ⟨hlen, hemp⟩ := hs
    simp only [step, checkBroadcasterStatusErr]
    split_ifs <;> exact ⟨hlen, hemp⟩
  | disconnect => exact atMostOnePending_handleDisconnection s hs
  | published sub play =>
    obtain ⟨hlen, hemp⟩ := hs
    simp only [step, userPublished]
    split_ifs <;> exact ⟨hlen, hemp⟩
  | unpublished => exact hs
  | timeout ok => exact atMostOnePending_timeout s ok hs
  | mute =>
    obtain ⟨hlen, hemp⟩ := hs
    simp only [step, toggleMute]
    cases s.remoteAudioTrack <;> [exact ⟨hlen, hemp⟩; split_ifs <;> exact ⟨hlen, hemp⟩]
  | volumeChange v =>
    obtain ⟨hlen, hemp⟩ := hs
    simp only [step, handleVolumeChange]
    split_ifs <;> [skip; exact ⟨hlen, hemp⟩]
    cases s.remoteAudioTrack <;> exact ⟨hlen, hemp⟩
  | playPause ok =>
    obtain ⟨hlen, hemp⟩ := hs
    simp only [step, handlePlayPauseStream]
    cases s.remoteAudioTrack <;> [exact ⟨hlen, hemp⟩; split_ifs <;> exact ⟨hlen, hemp⟩]
  | teardown =>
    simp only [step, cleanupEffect, stopHeartbeat]
    split_ifs <;> exact ⟨by simp, fun _ => rfl⟩

theorem atMostOnePending_runEvents (evs : List Ev) (s : ListenerState)
    (hs : AtMostOnePending s) : AtMostOnePending (runEvents evs s) := by
  induction evs generalizing s with
  | nil => exact hs
  | cons e evs ih => exact ih (step e s) (atMostOnePending_step e s hs)

/-- Once the budget is exhausted and nothing is scheduled, no event brings
the counter back below the budget or schedules a reconnect timeout:
`attemptReconnection` bails out at its entry guard, its call sites fail
their `reconnectCount < maxReconnectAttempts` tests, and no timeout can
fire with nothing scheduled. Only an external restart (a fresh component
mount) leaves this region. -/
theorem terminal_step (e : Ev) (s : ListenerState)
    (hc : maxReconnectAttempts ≤ s.reconnectCount) (hp : s.pendingReconnects = []) :
    maxReconnectAttempts ≤ (step e s).reconnectCount ∧
      (step e s).pendingReconnects = [] := by
  cases e with
  | heartbeatOk h n =>
    simp only [step, checkBroadcasterStatusOk]
    split_ifs with h1 h2 h3 h4 h5 <;>
      first
        | exact ⟨hc, hp⟩
        | exact absurd h2.2 (not_lt.mpr hc)
  | heartbeatErr =>
    simp only [step, checkBroadcasterStatusErr]
    split_ifs <;> exact ⟨hc, hp⟩
  | disconnect =>
    simp only [step, handleDisconnection]
    split_ifs with h1
    · exact absurd h1.2 (not_lt.mpr hc)
    · exact ⟨hc, hp⟩
  | published sub play =>
    simp only [step, userPublished]
    split_ifs <;> exact ⟨hc, hp⟩
  | unpublished => exact ⟨hc, hp⟩
  | timeout ok =>
    simp only [step, hp]
    exact ⟨hc, trivial⟩
  | mute =>
    simp only [step, toggleMute]
    cases s.remoteAudioTrack <;> [exact ⟨hc, hp⟩; split_ifs <;> exact ⟨hc, hp⟩]
  | volumeChange v =>
    simp only [step, handleVolumeChange]
    split_ifs <;> [skip; exact ⟨hc, hp⟩]
    cases s.remoteAudioTrack <;> exact ⟨hc, hp⟩
  | playPause ok =>
    simp only [step, handlePlayPauseStream]
    cases s.remoteAudioTrack <;> [exact ⟨hc, hp⟩; split_ifs <;> exact ⟨hc, hp⟩]
  | teardown =>
    simp only [step, cleanupEffect, stopHeartbeat]
    split_ifs <;> exact ⟨hc, rfl⟩

theorem attemptReconnection_remoteAudioTrack (s : ListenerState) :
    (attemptReconnection s).remoteAudioTrack = s.remoteAudioTrack := by
  unfold attemptReconnection
  split_ifs <;> rfl

/-! ## Concrete states used as inputs -/

/-- A state with one reconnection attempt in flight: marked reconnecting,
counter at 1, the attempt's timeout scheduled (it captured count 0). -/
def inFlightState : ListenerState :=
  { initialState with isReconnecting := true, reconnectCount := 1, pendingReconnects := [0] }

/-- A live state holding a playing audio track at the default volume. -/
def liveTrackState : ListenerState :=
  { initialState with remoteAudioTrack := some ⟨75, true⟩, isLive := true }

/-- A connected state that was playing before the last disconnect. -/
def resumeIntentState : ListenerState :=
  { initialState with wasPlayingBeforeDisconnect := true }

/-- A muted live state holding a track (volume 0 applied by the mute). -/
def mutedTrackState : ListenerState :=
  { initialState with isMuted := true, remoteAudioTrack := some ⟨0, true⟩, isLive := true }

/-! ## Claims -/

/-- C1: when a heartbeat tick's presence poll reports the broadcaster
online while the machine is connected but not live and holds no audio
track — the stuck state; a condition persisting one full heartbeat
interval is observed by such a tick, the heartbeat firing every
`heartbeatInterval` ms — and no attempt is in flight and the budget is
not exhausted, the heartbeat handler itself drives the machine into
reconnection: `isReconnecting` becomes true, a reconnect timeout is
scheduled, and the attempt counter advances, all without external
input. -/
theorem claim_C1_stuck_state_forces_reconnect (s : ListenerState) (listeners : Nat)
    (hconn : s.isConnected = true) (hlive : s.isLive = false)
    (htrack : s.remoteAudioTrack = none) (hflight : s.isReconnecting = false)
    (hbudget : s.reconnectCount < maxReconnectAttempts) :
    (checkBroadcasterStatusOk s true listeners).isReconnecting = true ∧
    (checkBroadcasterStatusOk s true listeners).pendingReconnects =
      s.pendingReconnects ++ [s.reconnectCount] ∧
    (checkBroadcasterStatusOk s true listeners).reconnectCount = s.reconnectCount + 1 := by
  simp only [checkBroadcasterStatusOk]
  split_ifs with h1 h2 h3
  · simp [attemptReconnection, not_le.mpr hbudget] at h3
  · simp [attemptReconnection, not_le.mpr hbudget]
  · exact absurd ⟨hflight, hbudget⟩ h2
  · exact absurd ⟨hflight, hbudget⟩ h2
  · exact absurd ⟨trivial, hconn, hlive, htrack⟩ h1
  · exact absurd ⟨trivial, hconn, hlive, htrack⟩ h1

/-- Witness for C1 at the freshly connected state. -/
theorem claim_C1_witness :
    (checkBroadcasterStatusOk initialState true 5).isReconnecting = true ∧
    (checkBroadcasterStatusOk initialState true 5).pendingReconnects = [0] ∧
    (checkBroadcasterStatusOk initialState true 5).reconnectCount = 1 := by
  have h := claim_C1_stuck_state_forces_reconnect initialState 5 rfl rfl rfl rfl (by decide)
  simpa [initialState] using h

/-- C2 as stated is false: `attemptReconnection` carries no internal
re-entry guard, so invoking it while an attempt is already in flight
(here: reconnecting with the attempt's timeout scheduled) is not a
no-op — it increments the counter and schedules a second timeout. -/
theorem claim_C2_counterexample :
    inFlightState.isReconnecting = true ∧
    inFlightState.pendingReconnects = [0] ∧
    attemptReconnection inFlightState ≠ inFlightState ∧
    (attemptReconnection inFlightState).pendingReconnects.length = 2 := by decide

/-- C2 amended: the idempotent re-entry guard lives at the call sites —
the heartbeat handler and the disconnect handler both test
`isReconnecting` before invoking `attemptReconnection`, and the failure
path of a resolving attempt is the only other caller — so along every
sequence of disconnect events, heartbeat ticks and other component events
from the freshly connected state, at most one reconnection attempt is
pending at any time; but `attemptReconnection` itself, invoked while an
attempt is pending, is not a no-op. -/
theorem claim_C2_amended :
    (∀ e s, AtMostOnePending s → AtMostOnePending (step e s)) ∧
    (∀ evs, AtMostOnePending (runEvents evs initialState)) := by
  refine ⟨atMostOnePending_step, fun evs => atMostOnePending_runEvents evs initialState ?_⟩
  exact ⟨by decide, fun _ => rfl⟩

/-- Witness for C2: the invariant survives a disconnect from the fresh
state. -/
theorem claim_C2_witness : AtMostOnePending (step Ev.disconnect initialState) :=
  claim_C2_amended.1 Ev.disconnect initialState ⟨by decide, fun _ => rfl⟩

/-- C3: on the run in which the machine starts reconnecting from the
connected state and every scheduled rejoin fails, after exactly
`maxReconnectAttempts = 20` consecutive failures the terminal condition
holds — counter at 20, no attempt in flight, nothing scheduled, the
terminal error surfaced — while before the twentieth failure the machine
is still reconnecting; and from any budget-exhausted state with nothing
scheduled, no event ever lowers the counter or schedules another attempt
(only an external restart resets it). -/
theorem claim_C3_budget_exhaustion :
    (failedRun 20).reconnectCount = 20 ∧
    (failedRun 20).isReconnecting = false ∧
    (failedRun 20).pendingReconnects = [] ∧
    (failedRun 20).connectionError =
      some "Connection failed after maximum attempts. Please refresh the page." ∧
    (∀ k, k < 20 → (failedRun k).isReconnecting = true) ∧
    (∀ e s, maxReconnectAttempts ≤ s.reconnectCount → s.pendingReconnects = [] →
      maxReconnectAttempts ≤ (step e s).reconnectCount ∧
        (step e s).pendingReconnects = []) :=
  ⟨by decide, by decide, by decide, by decide, by decide, terminal_step⟩

/-- Witness for C3: one more disconnect after exhaustion schedules
nothing. -/
theorem claim_C3_witness :
    maxReconnectAttempts ≤ (step Ev.disconnect (failedRun 20)).reconnectCount ∧
    (step Ev.disconnect (failedRun 20)).pendingReconnects = [] :=
  claim_C3_budget_exhaustion.2.2.2.2.2 Ev.disconnect (failedRun 20) (by decide) (by decide)

/-- C4: the reconnection delay for attempt index `i` is
`min(500 * 1.2^i, 3000)` milliseconds (JavaScript numbers modelled as
rationals), the delay sequence is non-decreasing in the index, and it
never exceeds the 3000 ms cap. -/
theorem claim_C4_backoff (i : Nat) :
    reconnectDelay i = min (500 * (6 / 5 : ℚ) ^ i) 3000 ∧
    reconnectDelay i ≤ reconnectDelay (i + 1) ∧
    reconnectDelay i ≤ 3000 := by
  refine ⟨rfl, ?_, min_le_right _ _⟩
  have h1 : ((6 : ℚ) / 5) ^ i ≤ ((6 : ℚ) / 5) ^ (i + 1) :=
    pow_le_pow_right₀ (by norm_num) (Nat.le_succ i)
  exact min_le_min (by linarith) le_rfl

/-- C5: the attempt counter is reset to 0 exactly by a successfully
resolving rejoin, incremented exactly by `attemptReconnection` in the
same synchronous block that schedules the retry timeout (and not at all
when the budget guard trips, where nothing is scheduled either), and left
alone by every other handler. On the all-failures run, the state against
which the `(k+1)`-th failure resolves carries counter `k + 1`: the
counter equals the number of attempts started since the last success, so
reading it as the `k`-th failure is processed — before the handler
schedules the next retry — yields exactly `k`. -/
theorem claim_C5_counter_discipline :
    (∀ s c, (reconnectTimeout s c true).reconnectCount = 0) ∧
    (∀ s, s.reconnectCount < maxReconnectAttempts →
      (attemptReconnection s).reconnectCount = s.reconnectCount + 1 ∧
      (attemptReconnection s).pendingReconnects =
        s.pendingReconnects ++ [s.reconnectCount]) ∧
    (∀ s, maxReconnectAttempts ≤ s.reconnectCount → attemptReconnection s = s) ∧
    (∀ s, (userUnpublished s).reconnectCount = s.reconnectCount) ∧
    (∀ s, (checkBroadcasterStatusErr s).reconnectCount = s.reconnectCount) ∧
    (∀ s, (toggleMute s).reconnectCount = s.reconnectCount) ∧
    (∀ s v, (handleVolumeChange s v).reconnectCount = s.reconnectCount) ∧
    (∀ s ok, (handlePlayPauseStream s ok).reconnectCount = s.reconnectCount) ∧
    (∀ s sub play, (userPublished s sub play).reconnectCount = s.reconnectCount) ∧
    (∀ k, k < maxReconnectAttempts → (failedRun k).reconnectCount = k + 1) := by
  refine ⟨?_, ?_, fun s h => attemptReconnection_of_ge h, ?_, ?_, ?_, ?_, ?_, ?_, by decide⟩
  · intro s c
    simp [reconnectTimeout]
  · intro s h
    rw [attemptReconnection_of_lt h]
    exact ⟨rfl, rfl⟩
  · intro s
    rfl
  · intro s
    unfold checkBroadcasterStatusErr
    split_ifs <;> rfl
  · intro s
    unfold toggleMute
    cases s.remoteAudioTrack <;> [rfl; (split_ifs <;> rfl)]
  · intro s v
    simp only [handleVolumeChange]
    split_ifs <;> [skip; rfl]
    cases s.remoteAudioTrack <;> rfl
  · intro s ok
    unfold handlePlayPauseStream
    cases s.remoteAudioTrack <;> [rfl; (split_ifs <;> rfl)]
  · intro s sub play
    simp only [userPublished]
    split_ifs <;> rfl

/-- Witness for C5: a concrete reset and a concrete point of the failing
run. -/
theorem claim_C5_witness :
    (reconnectTimeout initialState 0 true).reconnectCount = 0 ∧
    (failedRun 2).reconnectCount = 3 :=
  ⟨claim_C5_counter_discipline.1 initialState 0,
    claim_C5_counter_discipline.2.2.2.2.2.2.2.2.2 2 (by decide)⟩

/-- C6 as stated is false: when the auto-resume `play()` fails on attach,
the `catch` only logs, so `wasPlayingBeforeDisconnect` is not cleared —
it is cleared only on successful resumption. Here a track attaches while
the flag is set and playback fails, and the flag survives. -/
theorem claim_C6_counterexample :
    resumeIntentState.wasPlayingBeforeDisconnect = true ∧
    (userPublished resumeIntentState true false).wasPlayingBeforeDisconnect = true ∧
    (userPublished resumeIntentState true false).isPlaying = false := by decide

/-- C6 amended: on attach the current mute/volume settings are applied to
the track before the handle is exposed (the exposed handle already
carries them), and when `wasPlayingBeforeDisconnect` is set playback
resumption is attempted immediately; the flag is cleared exactly when
resumption succeeds — on a failed auto-resume it remains set and the
state is not marked playing. -/
theorem claim_C6_amended (s : ListenerState) (playOk : Bool) :
    ((userPublished s true playOk).remoteAudioTrack.map AudioTrack.volumeApplied =
      some (if s.isMuted = true then 0 else s.volume)) ∧
    (userPublished s true playOk).isLive = true ∧
    (s.wasPlayingBeforeDisconnect = true → playOk = true →
      (userPublished s true playOk).isPlaying = true ∧
      (userPublished s true playOk).wasPlayingBeforeDisconnect = false) ∧
    (s.wasPlayingBeforeDisconnect = true → playOk = false →
      (userPublished s true playOk).wasPlayingBeforeDisconnect = true ∧
      (userPublished s true playOk).isPlaying = s.isPlaying) ∧
    (s.wasPlayingBeforeDisconnect = false →
      (userPublished s true playOk).wasPlayingBeforeDisconnect = false ∧
      (userPublished s true playOk).isPlaying = s.isPlaying) := by
  simp only [userPublished]
  split_ifs with h0 h1 h2 <;> simp_all

/-- Witness for C6: successful auto-resume at the default volume. -/
theorem claim_C6_witness :
    ((userPublished resumeIntentState true true).remoteAudioTrack.map
      AudioTrack.volumeApplied = some 75) ∧
    (userPublished resumeIntentState true true).isPlaying = true := by
  have h := claim_C6_amended resumeIntentState true
  exact ⟨by simpa [resumeIntentState, initialState] using h.1, (h.2.2.1 rfl rfl).1⟩

/-- C7 as stated is false: the `user-unpublished` handler does not destroy
the track handle — it neither stops the track nor releases the reference;
it only clears the live and playing flags. Here the handle survives an
unpublish, still referenced and still playing. -/
theorem claim_C7_counterexample :
    liveTrackState.remoteAudioTrack = some { volumeApplied := 75, playing := true } ∧
    (userUnpublished liveTrackState).remoteAudioTrack =
      some { volumeApplied := 75, playing := true } := by decide

/-- C7 amended: the handle is destroyed on transport disconnect (stopped
and its reference released) and on component teardown (stopped, its
reference dying with the unmount, with the scheduled reconnect timeout
cancelled); on broadcaster unpublish the handle is retained — only the
live/playing flags are cleared. At most one handle is held at a time
(the single `remoteAudioTrack` reference, replaced wholesale on
attach). -/
theorem claim_C7_amended (s : ListenerState) :
    (handleDisconnection s).remoteAudioTrack = none ∧
    (cleanupEffect s).remoteAudioTrack =
      s.remoteAudioTrack.map (fun t => { t with playing := false }) ∧
    (cleanupEffect s).pendingReconnects = [] ∧
    (userUnpublished s).remoteAudioTrack = s.remoteAudioTrack ∧
    (userUnpublished s).isLive = false := by
  refine ⟨?_, ?_, ?_, rfl, rfl⟩
  · simp only [handleDisconnection]
    split_ifs with h1
    · rw [attemptReconnection_remoteAudioTrack]
    · rfl
  · simp only [cleanupEffect, stopHeartbeat]
    split_ifs <;> rfl
  · simp only [cleanupEffect, stopHeartbeat]
    split_ifs <;> rfl

/-- C8: a failed presence poll is transient — the heartbeat interval is
left running, the previously published presence values and everything
else besides the surfaced transient error are retained, and no
reconnection attempt is triggered by the failure itself. -/
theorem claim_C8_presence_failure_transient (s : ListenerState) :
    (checkBroadcasterStatusErr s).broadcasterOnline = s.broadcasterOnline ∧
    (checkBroadcasterStatusErr s).listenerCount = s.listenerCount ∧
    (checkBroadcasterStatusErr s).heartbeatRunning = s.heartbeatRunning ∧
    (checkBroadcasterStatusErr s).isReconnecting = s.isReconnecting ∧
    (checkBroadcasterStatusErr s).reconnectCount = s.reconnectCount ∧
    (checkBroadcasterStatusErr s).pendingReconnects = s.pendingReconnects ∧
    (checkBroadcasterStatusErr s).remoteAudioTrack = s.remoteAudioTrack := by
  unfold checkBroadcasterStatusErr
  split_ifs <;> exact ⟨rfl, rfl, rfl, rfl, rfl, rfl, rfl⟩

/-- C9 as stated is false: with no track handle held, `toggleMute`
returns early without recording anything, so a mute request made while
disconnected is dropped rather than recorded as desired state — here the
request leaves the state (including `isMuted`) unchanged, and the next
attach starts unmuted. -/
theorem claim_C9_counterexample :
    initialState.remoteAudioTrack = none ∧
    initialState.isMuted = false ∧
    toggleMute initialState = initialState := by decide

/-- C9 amended: volume requests apply to the live handle when present and
are recorded as desired state when not, and the next attached track
starts with the recorded mute flag and volume level; mute toggles apply
to the live handle when present but are dropped (a no-op, not recorded)
when no handle is held. -/
theorem claim_C9_amended (s : ListenerState) (v : Nat) (t : AudioTrack) (playOk : Bool) :
    (s.remoteAudioTrack = none → (handleVolumeChange s v).volume = v ∧
      (handleVolumeChange s v).remoteAudioTrack = none) ∧
    (s.remoteAudioTrack = none → toggleMute s = s) ∧
    (s.remoteAudioTrack = some t → s.isMuted = false →
      (handleVolumeChange s v).remoteAudioTrack = some { t with volumeApplied := v } ∧
      (toggleMute s).remoteAudioTrack = some { t with volumeApplied := 0 } ∧
      (toggleMute s).isMuted = true) ∧
    (s.remoteAudioTrack = some t → s.isMuted = true →
      (toggleMute s).remoteAudioTrack = some { t with volumeApplied := s.volume } ∧
      (toggleMute s).isMuted = false) ∧
    ((userPublished s true playOk).remoteAudioTrack.map AudioTrack.volumeApplied =
      some (if s.isMuted = true then 0 else s.volume)) := by
  refine ⟨?_, ?_, ?_, ?_, ?_⟩
  · intro h
    simp only [handleVolumeChange]
    split_ifs <;> simp [h]
  · intro h
    unfold toggleMute
    rw [h]
  · intro h hm
    simp only [handleVolumeChange, toggleMute]
    rw [h]
    simp [h, hm]
  · intro h hm
    unfold toggleMute
    rw [h]
    simp [hm]
  · simp only [userPublished]
    split_ifs <;> simp_all

/-- Witness for C9: with a live track and unmuted state, a mute request
applies volume 0 to the handle. -/
theorem claim_C9_witness :
    (toggleMute liveTrackState).remoteAudioTrack =
      some { volumeApplied := 0, playing := true } ∧
    (toggleMute liveTrackState).isMuted = true := by
  have h := (claim_C9_amended liveTrackState 50 ⟨75, true⟩ true).2.2.1 rfl rfl
  exact ⟨h.2.1, h.2.2⟩

/-- C10: muting never alters the stored volume level — `toggleMute`
leaves the `volume` field unchanged while applying 0 to the track; while
muted a volume change updates only the stored value and leaves the track
untouched; unmuting applies exactly the stored volume to the track. -/
theorem claim_C10_mute_volume_frame (s : ListenerState) (v : Nat) (t : AudioTrack) :
    (toggleMute s).volume = s.volume ∧
    (s.isMuted = false → s.remoteAudioTrack = some t →
      (toggleMute s).remoteAudioTrack = some { t with volumeApplied := 0 }) ∧
    (s.isMuted = true →
      (handleVolumeChange s v).volume = v ∧
      (handleVolumeChange s v).remoteAudioTrack = s.remoteAudioTrack) ∧
    (s.isMuted = true → s.remoteAudioTrack = some t →
      (toggleMute s).remoteAudioTrack = some { t with volumeApplied := s.volume } ∧
      (toggleMute s).isMuted = false) := by
  refine ⟨?_, ?_, ?_, ?_⟩
  · unfold toggleMute
    cases s.remoteAudioTrack <;> [rfl; (split_ifs <;> rfl)]
  · intro hm h
    unfold toggleMute
    rw [h]
    simp [hm]
  · intro hm
    simp only [handleVolumeChange]
    simp [hm]
  · intro hm h
    unfold toggleMute
    rw [h]
    simp [hm]

/-- Witness for C10: unmuting a muted live state applies the stored
volume 75; a muted volume change stores 30 without touching the track. -/
theorem claim_C10_witness :
    (toggleMute mutedTrackState).remoteAudioTrack =
      some { volumeApplied := 75, playing := true } ∧
    (handleVolumeChange mutedTrackState 30).volume = 30 ∧
    (handleVolumeChange mutedTrackState 30).remoteAudioTrack =
      some { volumeApplied := 0, playing := true } := by
  have h := claim_C10_mute_volume_frame mutedTrackState 30 ⟨0, true⟩
  refine ⟨(h.2.2.2 rfl rfl).1, (h.2.2.1 rfl).1, ?_⟩
  rw [(h.2.2.1 rfl).2]
  rfl

end Listner
